import Mathlib

/-!
Verification development for the BioHarness vital-signs simulator
(`src/BioHarnessSimulator`).  The Python modules are shallowly embedded:

* machine floats become `ℚ` (exact arithmetic; `round(x, 1)` becomes
  rounding to the nearest multiple of `1/10`);
* `random.random()` / `random.uniform(a, b)` draws are passed in
  explicitly as rational parameters in `[0, 1]`, with
  `uniform a b u = a + (b - a) * u`;
* a raised exception becomes an explicit error value returned next to
  the (unchanged) object state;
* the network is an oracle `Nat → RequestOutcome` giving the outcome of
  each successive `requests.post` attempt; wall-clock timestamps are a
  `String` parameter; `time.sleep` has no observable effect and is not
  modelled.
-/

/-- `vital_types.VitalSignType` (the `.value` strings are the Python
enum payloads: heart_rate, bp_systolic, bp_diastolic, spo2, temperature,
respiratory_rate). -/
inductive VitalSignType where
  | HEART_RATE
  | BLOOD_PRESSURE_SYSTOLIC
  | BLOOD_PRESSURE_DIASTOLIC
  | OXYGEN_SATURATION
  | BODY_TEMPERATURE
  | RESPIRATORY_RATE
deriving DecidableEq

/-- `vital_types.PatientSimulationMode`. -/
inductive PatientSimulationMode where
  | NORMAL_HEALTHY_PATIENT
  | ABNORMAL_CONDITION_PATIENT
  | EMERGENCY_CRITICAL_PATIENT
deriving DecidableEq

/-- The `.value` string of a `PatientSimulationMode` member. -/
def PatientSimulationMode.value : PatientSimulationMode → String
  | .NORMAL_HEALTHY_PATIENT => "normal"
  | .ABNORMAL_CONDITION_PATIENT => "abnormal"
  | .EMERGENCY_CRITICAL_PATIENT => "emergency"

/-- `config_settings.NORMAL_VITAL_RANGES` (keyed in Python by the
enum's `.value` string; keyed here by the enum itself). -/
def NORMAL_VITAL_RANGES : VitalSignType → ℚ × ℚ
  | .HEART_RATE => (60, 100)
  | .BLOOD_PRESSURE_SYSTOLIC => (90, 140)
  | .BLOOD_PRESSURE_DIASTOLIC => (60, 90)
  | .OXYGEN_SATURATION => (95, 100)
  | .BODY_TEMPERATURE => (361/10, 372/10)
  | .RESPIRATORY_RATE => (12, 20)

/-- `config_settings.ABNORMAL_VITAL_RANGES`. -/
def ABNORMAL_VITAL_RANGES : VitalSignType → ℚ × ℚ
  | .HEART_RATE => (40, 180)
  | .BLOOD_PRESSURE_SYSTOLIC => (70, 200)
  | .BLOOD_PRESSURE_DIASTOLIC => (40, 120)
  | .OXYGEN_SATURATION => (85, 94)
  | .BODY_TEMPERATURE => (35, 40)
  | .RESPIRATORY_RATE => (8, 30)

/-- `config_settings.EMERGENCY_VITAL_RANGES`. -/
def EMERGENCY_VITAL_RANGES : VitalSignType → ℚ × ℚ
  | .HEART_RATE => (30, 220)
  | .BLOOD_PRESSURE_SYSTOLIC => (60, 250)
  | .BLOOD_PRESSURE_DIASTOLIC => (30, 150)
  | .OXYGEN_SATURATION => (70, 84)
  | .BODY_TEMPERATURE => (32, 42)
  | .RESPIRATORY_RATE => (5, 40)

/-- Python `round(x, 1)`: round to the nearest multiple of `1/10`
(tie-breaking differs from CPython's float rounding, but no claim here
depends on a tie). -/
def roundTo1 (x : ℚ) : ℚ := (round (10 * x) : ℤ) / 10

/-- Python `random.uniform(a, b)` with the draw `u ∈ [0,1]` explicit:
`a + (b - a) * u`. -/
def uniformDraw (a b u : ℚ) : ℚ := a + (b - a) * u

/-- Python `int(x)`: truncation toward zero. -/
def truncQ (x : ℚ) : ℤ := if 0 ≤ x then ⌊x⌋ else ⌈x⌉

/-- `vitals_generator.VitalSignsValueGenerator` object state: the
`_custom_vital_ranges` dict (a finite map from vital type to a
`(min, max)` pair).  The `_predefined_vital_ranges` attribute is the
constant mapping `predefined_vital_ranges` below. -/
structure VitalSignsValueGenerator where
  custom_vital_ranges : VitalSignType → Option (ℚ × ℚ)

/-- The generator's `_predefined_vital_ranges` dict: mode ↦ static table. -/
def predefined_vital_ranges : PatientSimulationMode → VitalSignType → ℚ × ℚ
  | .NORMAL_HEALTHY_PATIENT => NORMAL_VITAL_RANGES
  | .ABNORMAL_CONDITION_PATIENT => ABNORMAL_VITAL_RANGES
  | .EMERGENCY_CRITICAL_PATIENT => EMERGENCY_VITAL_RANGES

/-- `VitalSignsValueGenerator.set_custom_vital_range`.  Returns the
state after the call together with the raised `ValueError` message, if
any (a raise leaves the object state unchanged). -/
def set_custom_vital_range (g : VitalSignsValueGenerator) (vital_type : VitalSignType)
    (minimum_value maximum_value : ℚ) : VitalSignsValueGenerator × Option String :=
  if minimum_value ≥ maximum_value then
    (g, some "Minimum value must be less than maximum value")
  else
    (⟨Function.update g.custom_vital_ranges vital_type (some (minimum_value, maximum_value))⟩,
      none)

/-- `VitalSignsValueGenerator.remove_custom_vital_range`: pops the
entry, returning whether one existed. -/
def remove_custom_vital_range (g : VitalSignsValueGenerator) (vital_type : VitalSignType) :
    VitalSignsValueGenerator × Bool :=
  (⟨Function.update g.custom_vital_ranges vital_type none⟩,
    (g.custom_vital_ranges vital_type).isSome)

/-- `VitalSignsValueGenerator.get_vital_range_for_mode`: custom ranges
take precedence, otherwise the static table for the mode. -/
def get_vital_range_for_mode (g : VitalSignsValueGenerator) (vital_type : VitalSignType)
    (simulation_mode : PatientSimulationMode) : ℚ × ℚ :=
  match g.custom_vital_ranges vital_type with
  | some r => r
  | none => predefined_vital_ranges simulation_mode vital_type

/-- `VitalSignsValueGenerator._generate_normal_patient_value` with the
uniform draw `u` explicit. -/
def _generate_normal_patient_value (min_val max_val u : ℚ) : ℚ :=
  let center_point := (min_val + max_val) / 2
  let variation_range := (max_val - min_val) * (15/100)
  let generated_value :=
    uniformDraw (center_point - variation_range) (center_point + variation_range) u
  roundTo1 (max min_val (min max_val generated_value))

/-- `VitalSignsValueGenerator._generate_abnormal_patient_value`.
`r1` is the `random.random()` spike coin (spike when `r1 < 0.3`), `r2`
the low/high coin, `u` the uniform draw. -/
def _generate_abnormal_patient_value (vital_type : VitalSignType) (min_val max_val r1 r2 u : ℚ) :
    ℚ :=
  if r1 < 3/10 then
    if r2 < 1/2 then
      roundTo1 (uniformDraw min_val (min_val + (max_val - min_val) * (1/4)) u)
    else
      roundTo1 (uniformDraw (max_val - (max_val - min_val) * (1/4)) max_val u)
  else
    roundTo1 (uniformDraw (NORMAL_VITAL_RANGES vital_type).1 (NORMAL_VITAL_RANGES vital_type).2 u)

/-- `VitalSignsValueGenerator._generate_emergency_patient_value`. -/
def _generate_emergency_patient_value (vital_type : VitalSignType) (min_val max_val r1 r2 u : ℚ) :
    ℚ :=
  if r1 < 3/4 then
    if r2 < 1/2 then
      roundTo1 (uniformDraw min_val (min_val + (max_val - min_val) * (3/10)) u)
    else
      roundTo1 (uniformDraw (max_val - (max_val - min_val) * (3/10)) max_val u)
  else
    roundTo1 (uniformDraw (ABNORMAL_VITAL_RANGES vital_type).1
      (ABNORMAL_VITAL_RANGES vital_type).2 u)

/-- `VitalSignsValueGenerator.generate_vital_sign_value`, the spec's
`sample`, with the random draws `(r1, r2, u)` explicit (normal mode
consumes only `u`). -/
def generate_vital_sign_value (g : VitalSignsValueGenerator) (vital_type : VitalSignType)
    (simulation_mode : PatientSimulationMode) (r1 r2 u : ℚ) : ℚ :=
  let range := get_vital_range_for_mode g vital_type simulation_mode
  match simulation_mode with
  | .NORMAL_HEALTHY_PATIENT => _generate_normal_patient_value range.1 range.2 u
  | .ABNORMAL_CONDITION_PATIENT =>
      _generate_abnormal_patient_value vital_type range.1 range.2 r1 r2 u
  | .EMERGENCY_CRITICAL_PATIENT =>
      _generate_emergency_patient_value vital_type range.1 range.2 r1 r2 u

/-- `data_models.PatientVitalSigns` (floats as `ℚ`, ints as `ℤ`). -/
structure PatientVitalSigns where
  timestamp_iso_format : String
  heart_rate_bpm : ℤ
  blood_pressure_systolic_mmhg : ℤ
  blood_pressure_diastolic_mmhg : ℤ
  oxygen_saturation_percentage : ℤ
  body_temperature_celsius : ℚ
  respiratory_rate_per_minute : ℤ
  simulation_mode_used : String
  monitoring_device_identifier : String
  patient_identifier : String
  data_quality_score : Option ℚ
  signal_strength_indicator : Option ℤ
deriving DecidableEq

/-- `PatientVitalSigns.create_current_timestamp_reading`, with the
clock reading `now` (Python `datetime.now().isoformat()`) explicit; the
two optional quality fields keep their `None` defaults. -/
def create_current_timestamp_reading (heart_rate bp_systolic bp_diastolic spo2 : ℤ)
    (temperature : ℚ) (respiratory_rate : ℤ) (mode : PatientSimulationMode)
    (device_id patient_id now : String) : PatientVitalSigns :=
  { timestamp_iso_format := now ++ "Z"
    heart_rate_bpm := heart_rate
    blood_pressure_systolic_mmhg := bp_systolic
    blood_pressure_diastolic_mmhg := bp_diastolic
    oxygen_saturation_percentage := spo2
    body_temperature_celsius := temperature
    respiratory_rate_per_minute := respiratory_rate
    simulation_mode_used := mode.value
    monitoring_device_identifier := device_id
    patient_identifier := patient_id
    data_quality_score := none
    signal_strength_indicator := none }

/-- JSON values, for the wire payloads (numbers split into `ℤ` / `ℚ`
as the Python values are ints / floats). -/
inductive JsonValue where
  | jnull
  | jbool (b : Bool)
  | jint (n : ℤ)
  | jrat (q : ℚ)
  | jstr (s : String)
  | jobj (fields : List (String × JsonValue))

/-- Lookup in a JSON object's field list (first match, as in a dict). -/
def jsonLookup (fields : List (String × JsonValue)) (key : String) : Option JsonValue :=
  match fields with
  | [] => none
  | kv :: rest => if kv.1 = key then some kv.2 else jsonLookup rest key

/-- Whether a JSON value is an object having the given top-level key. -/
def jsonHasKey (v : JsonValue) (key : String) : Bool :=
  match v with
  | .jobj fields => (jsonLookup fields key).isSome
  | _ => false

/-- An `Option` turned into a JSON value (`None` ↦ `null`). -/
def jsonOfOptionQ : Option ℚ → JsonValue
  | none => .jnull
  | some q => .jrat q

/-- An optional int turned into a JSON value (`None` ↦ `null`). -/
def jsonOfOptionZ : Option ℤ → JsonValue
  | none => .jnull
  | some n => .jint n

/-- `PatientVitalSigns.to_json_serializable_dict`. -/
def to_json_serializable_dict (vs : PatientVitalSigns) : JsonValue :=
  .jobj
    [ ("timestamp", .jstr vs.timestamp_iso_format),
      ("vitals", .jobj
        [ ("heart_rate", .jint vs.heart_rate_bpm),
          ("bp_systolic", .jint vs.blood_pressure_systolic_mmhg),
          ("bp_diastolic", .jint vs.blood_pressure_diastolic_mmhg),
          ("spo2", .jint vs.oxygen_saturation_percentage),
          ("temperature", .jrat vs.body_temperature_celsius),
          ("respiratory_rate", .jint vs.respiratory_rate_per_minute) ]),
      ("metadata", .jobj
        [ ("device_id", .jstr vs.monitoring_device_identifier),
          ("patient_id", .jstr vs.patient_identifier),
          ("mode", .jstr vs.simulation_mode_used),
          ("quality_score", jsonOfOptionQ vs.data_quality_score),
          ("signal_strength", jsonOfOptionZ vs.signal_strength_indicator) ]) ]

/-- `data_models.BroadcastingResult` (the spec's DeliveryResult). -/
structure BroadcastingResult where
  destination_name : String
  was_successful : Bool
  error_message : Option String
  response_status_code : Option ℤ
  transmission_timestamp : Option String
deriving DecidableEq

/-- Outcome of one `requests.post` call, as seen by the retry loop. -/
inductive RequestOutcome where
  | response (status : ℤ) (text : String)
  | timeoutExn
  | connectionErrorExn
  | requestExceptionExn (msg : String)
  | unexpectedExn (msg : String)
deriving DecidableEq

/-- Whether an attempt outcome is a network-level failure (one of the
four `except` branches of the retry loop) rather than a response. -/
def isNetworkFailure : RequestOutcome → Bool
  | .response _ _ => false
  | _ => true

/-- The `last_exception` string the retry loop records for a
network-level failure (`None` for a response, which records nothing). -/
def exceptionMessage (endpoint_url : String) (timeout_seconds : ℤ) :
    RequestOutcome → Option String
  | .response _ _ => none
  | .timeoutExn => some ("Request timeout after " ++ toString timeout_seconds ++ " seconds")
  | .connectionErrorExn => some ("Connection error to " ++ endpoint_url)
  | .requestExceptionExn e => some ("Request error: " ++ e)
  | .unexpectedExn e => some ("Unexpected error: " ++ e)

/-- Python string interpolation of an `Optional[str]`: `None` prints as
`"None"`. -/
def pyStrOfOption : Option String → String
  | none => "None"
  | some s => s

/-- The loop body of
`VitalSignsDataBroadcaster._send_http_post_request_with_retries`:
`attempt` is the 0-based index of the next attempt, `fuel` the number of
loop iterations left, `last_exception` the recorded error so far.  A
2xx (200/201/202) response returns success immediately; any other
response returns failure immediately; a network-level failure records
its message and retries (the inter-attempt `time.sleep` is not
observable here). -/
def sendAttemptsFrom (destination_name endpoint_url : String) (timeout_seconds : ℤ)
    (max_retry_attempts : ℤ) (network : Nat → RequestOutcome) (now : String) :
    Nat → Nat → Option String → BroadcastingResult
  | _, 0, last_exception =>
      { destination_name := destination_name
        was_successful := false
        error_message := some ("Failed after " ++ toString max_retry_attempts
          ++ " attempts. Last error: " ++ pyStrOfOption last_exception)
        response_status_code := none
        transmission_timestamp := some now }
  | attempt, fuel + 1, last_exception =>
      match network attempt with
      | .response status text =>
          if status = 200 ∨ status = 201 ∨ status = 202 then
            { destination_name := destination_name
              was_successful := true
              error_message := none
              response_status_code := some status
              transmission_timestamp := some now }
          else
            { destination_name := destination_name
              was_successful := false
              error_message := some ("HTTP " ++ toString status ++ ": " ++ text)
              response_status_code := some status
              transmission_timestamp := some now }
      | outcome =>
          sendAttemptsFrom destination_name endpoint_url timeout_seconds max_retry_attempts
            network now (attempt + 1) fuel (exceptionMessage endpoint_url timeout_seconds outcome)

/-- `VitalSignsDataBroadcaster._send_http_post_request_with_retries`.
`payload_data` is the JSON body handed to `requests.post`; the server's
behaviour is the oracle `network` (attempt index ↦ outcome).  The
Python `for attempt_number in range(max_retry_attempts)` loop runs
`max(max_retry_attempts, 0)` times. -/
def _send_http_post_request_with_retries (destination_name endpoint_url : String)
    (payload_data : JsonValue) (timeout_seconds max_retry_attempts : ℤ)
    (network : Nat → RequestOutcome) (now : String) : BroadcastingResult :=
  sendAttemptsFrom destination_name endpoint_url timeout_seconds max_retry_attempts
    network now 0 max_retry_attempts.toNat none

/-- `config_settings` delivery constants used by the broadcaster. -/
def RULE_ENGINE_CONNECTION_TIMEOUT_SECONDS : ℤ := 5

/-- `config_settings.RULE_ENGINE_REQUEST_RETRY_COUNT`. -/
def RULE_ENGINE_REQUEST_RETRY_COUNT : ℤ := 3

/-- `config_settings.UI_CONNECTION_TIMEOUT_SECONDS`. -/
def UI_CONNECTION_TIMEOUT_SECONDS : ℤ := 3

/-- `config_settings.MAX_BROADCASTING_RETRIES`. -/
def MAX_BROADCASTING_RETRIES : ℤ := 3

/-- `data_broadcaster.VitalSignsDataBroadcaster` object state (URLs
and per-destination enabled flags). -/
structure VitalSignsDataBroadcaster where
  rule_engine_endpoint_url : String
  ui_endpoint_url : String
  is_rule_engine_broadcasting_enabled : Bool
  is_ui_broadcasting_enabled : Bool

/-- `VitalSignsDataBroadcaster.broadcast_to_rule_engine`: one delivery
of `to_json_serializable_dict` to the rule-engine URL with its timeout
and retry budget.  `network` is that destination's server oracle. -/
def broadcast_to_rule_engine (b : VitalSignsDataBroadcaster)
    (vital_signs_data : PatientVitalSigns) (network : Nat → RequestOutcome) (now : String) :
    BroadcastingResult :=
  _send_http_post_request_with_retries "Rule Engine" b.rule_engine_endpoint_url
    (to_json_serializable_dict vital_signs_data)
    RULE_ENGINE_CONNECTION_TIMEOUT_SECONDS RULE_ENGINE_REQUEST_RETRY_COUNT network now

/-- `VitalSignsDataBroadcaster.broadcast_to_user_interface`. -/
def broadcast_to_user_interface (b : VitalSignsDataBroadcaster)
    (vital_signs_data : PatientVitalSigns) (network : Nat → RequestOutcome) (now : String) :
    BroadcastingResult :=
  _send_http_post_request_with_retries "User Interface" b.ui_endpoint_url
    (to_json_serializable_dict vital_signs_data)
    UI_CONNECTION_TIMEOUT_SECONDS MAX_BROADCASTING_RETRIES network now

/-- `VitalSignsDataBroadcaster.broadcast_vital_signs_to_all_destinations`
(the spec's `dispatch`): appends the rule-engine result when that
destination is enabled, then the UI result when that one is.  Each
destination has its own server oracle. -/
def broadcast_vital_signs_to_all_destinations (b : VitalSignsDataBroadcaster)
    (vital_signs_data : PatientVitalSigns)
    (networkRuleEngine networkUI : Nat → RequestOutcome) (now : String) :
    List BroadcastingResult :=
  (if b.is_rule_engine_broadcasting_enabled then
    [broadcast_to_rule_engine b vital_signs_data networkRuleEngine now] else [])
  ++ (if b.is_ui_broadcasting_enabled then
    [broadcast_to_user_interface b vital_signs_data networkUI now] else [])

/-- Python `x or default` for an optional int: `None` and the falsy
`0` both give the default. -/
def pyOrZ (x : Option ℤ) (default : ℤ) : ℤ :=
  match x with
  | none => default
  | some v => if v = 0 then default else v

/-- Python `x or default` for an optional float: `None` and the falsy
`0.0` both give the default. -/
def pyOrQ (x : Option ℚ) (default : ℚ) : ℚ :=
  match x with
  | none => default
  | some v => if v = 0 then default else v

/-- `RuleEngineIntegrationClient._determine_urgency_level`: sequential
checks against the fixed critical thresholds, then the emergency-mode
check. -/
def _determine_urgency_level (vital_signs : PatientVitalSigns) : Bool :=
  if vital_signs.heart_rate_bpm < 40 ∨ vital_signs.heart_rate_bpm > 150 then true
  else if vital_signs.blood_pressure_systolic_mmhg < 70
      ∨ vital_signs.blood_pressure_systolic_mmhg > 180 then true
  else if vital_signs.oxygen_saturation_percentage < 85 then true
  else if vital_signs.body_temperature_celsius < 35
      ∨ vital_signs.body_temperature_celsius > 40 then true
  else if vital_signs.respiratory_rate_per_minute < 8
      ∨ vital_signs.respiratory_rate_per_minute > 30 then true
  else if vital_signs.simulation_mode_used = "emergency" then true
  else false

/-- `RuleEngineIntegrationClient._format_vital_signs_for_rule_engine`
(`generated_at` is the `datetime.now().isoformat()` clock reading taken
inside the method). -/
def _format_vital_signs_for_rule_engine (vital_signs : PatientVitalSigns)
    (generated_at : String) : JsonValue :=
  .jobj
    [ ("deviceId", .jstr vital_signs.monitoring_device_identifier),
      ("patientId", .jstr vital_signs.patient_identifier),
      ("timestamp", .jstr vital_signs.timestamp_iso_format),
      ("readings", .jobj
        [ ("heartRate", .jint vital_signs.heart_rate_bpm),
          ("bloodPressure", .jobj
            [ ("systolic", .jint vital_signs.blood_pressure_systolic_mmhg),
              ("diastolic", .jint vital_signs.blood_pressure_diastolic_mmhg) ]),
          ("oxygenSaturation", .jint vital_signs.oxygen_saturation_percentage),
          ("bodyTemperature", .jrat vital_signs.body_temperature_celsius),
          ("respiratoryRate", .jint vital_signs.respiratory_rate_per_minute) ]),
      ("metadata", .jobj
        [ ("simulationMode", .jstr vital_signs.simulation_mode_used),
          ("generatedAt", .jstr generated_at),
          ("dataSource", .jstr "BioHarness_Simulator") ]) ]

/-- Python `dict.update`: existing keys keep their position with the
new value, fresh keys are appended in the update's order. -/
def dictUpdate (old upd : List (String × JsonValue)) : List (String × JsonValue) :=
  old.map (fun kv =>
    match jsonLookup upd kv.1 with
    | some v => (kv.1, v)
    | none => kv)
  ++ upd.filter (fun kv => (jsonLookup old kv.1).isNone)

/-- `dict.update` lifted to two JSON objects (non-objects unchanged,
which never occurs on the call sites embedded here). -/
def jsonObjUpdate (base upd : JsonValue) : JsonValue :=
  match base, upd with
  | .jobj old, .jobj u => .jobj (dictUpdate old u)
  | b, _ => b

/-- The enriched `rule_engine_payload` that
`RuleEngineIntegrationClient.submit_vital_signs_for_rule_evaluation`
builds: the rule-engine formatting plus the `submission_source`,
`requires_immediate_processing` and `data_quality_indicators` keys. -/
def submit_rule_engine_payload_built (vital_signs : PatientVitalSigns)
    (generated_at : String) : JsonValue :=
  jsonObjUpdate (_format_vital_signs_for_rule_engine vital_signs generated_at)
    (.jobj
      [ ("submission_source", .jstr "BioHarness_Vitals_Simulator"),
        ("requires_immediate_processing", .jbool (_determine_urgency_level vital_signs)),
        ("data_quality_indicators", .jobj
          [ ("signal_strength", .jint (pyOrZ vital_signs.signal_strength_indicator 100)),
            ("data_completeness", .jint 100),
            ("measurement_confidence", .jrat (pyOrQ vital_signs.data_quality_score (95/100))) ])
      ])

/-- The payload `submit_vital_signs_for_rule_evaluation` actually hands
to the network: it ends with
`return self._data_broadcaster.broadcast_to_rule_engine(patient_vital_signs)`,
whose body posts `vital_signs_data.to_json_serializable_dict()` — not
the `rule_engine_payload` built above. -/
def submit_rule_engine_payload_sent (vital_signs : PatientVitalSigns) : JsonValue :=
  to_json_serializable_dict vital_signs

/-- `RuleEngineIntegrationClient.submit_vital_signs_for_rule_evaluation`:
builds (and discards) the enriched payload, then delegates the delivery
of the plain serialisation to the broadcaster. -/
def submit_vital_signs_for_rule_evaluation (b : VitalSignsDataBroadcaster)
    (patient_vital_signs : PatientVitalSigns) (network : Nat → RequestOutcome) (now : String) :
    BroadcastingResult :=
  broadcast_to_rule_engine b patient_vital_signs network now

/-- A registered data-broadcasting callback (the spec's sink): invoked
with the new reading, either returning normally or raising (the
`Except.error` case carries the exception's message). -/
def DataSink : Type := PatientVitalSigns → Except String Unit

/-- `simulation_engine.PatientVitalsSimulationEngine` object state (the
thread handle and lock are concurrency artefacts with no sequential
content and are not part of the state). -/
structure PatientVitalsSimulationEngine where
  current_simulation_mode : PatientSimulationMode
  data_generation_interval_seconds : ℤ
  target_patient_identifier : String
  monitoring_device_identifier : String
  is_continuous_simulation_running : Bool
  vital_signs_generator : VitalSignsValueGenerator
  most_recent_vital_signs : Option PatientVitalSigns
  data_broadcasting_callbacks : List DataSink

/-- `PatientVitalsSimulationEngine._notify_data_broadcasting_callbacks`:
every callback is invoked in order with the same reading; a raise is
caught per callback (its message is the printed diagnostic).  The
returned list is the per-callback outcome trace. -/
def _notify_data_broadcasting_callbacks (callbacks : List DataSink)
    (vital_signs : PatientVitalSigns) : List (Except String Unit) :=
  callbacks.map (fun callback_function => callback_function vital_signs)

/-- Result of one `generate_single_vital_signs_reading` cycle: the
engine state after the call, the reading it returns, and the sink
outcome trace from `_notify_data_broadcasting_callbacks`. -/
structure GenerationCycleResult where
  engine : PatientVitalsSimulationEngine
  reading : PatientVitalSigns
  sink_outcomes : List (Except String Unit)

/-- `PatientVitalsSimulationEngine.generate_single_vital_signs_reading`:
samples the six vitals for the current mode (each call consuming its
own draws `d vitalType = (r1, r2, u)`), truncates all but the body
temperature with `int(...)`, assembles the reading, stores it as the
most recent one, then notifies every callback. -/
def generate_single_vital_signs_reading (e : PatientVitalsSimulationEngine)
    (d : VitalSignType → ℚ × ℚ × ℚ) (now : String) : GenerationCycleResult :=
  let sample := fun vt =>
    generate_vital_sign_value e.vital_signs_generator vt e.current_simulation_mode
      (d vt).1 (d vt).2.1 (d vt).2.2
  let heart_rate := truncQ (sample .HEART_RATE)
  let bp_systolic := truncQ (sample .BLOOD_PRESSURE_SYSTOLIC)
  let bp_diastolic := truncQ (sample .BLOOD_PRESSURE_DIASTOLIC)
  let oxygen_saturation := truncQ (sample .OXYGEN_SATURATION)
  let body_temperature := sample .BODY_TEMPERATURE
  let respiratory_rate := truncQ (sample .RESPIRATORY_RATE)
  let vital_signs := create_current_timestamp_reading heart_rate bp_systolic bp_diastolic
    oxygen_saturation body_temperature respiratory_rate e.current_simulation_mode
    e.monitoring_device_identifier e.target_patient_identifier now
  { engine := { e with most_recent_vital_signs := some vital_signs }
    reading := vital_signs
    sink_outcomes := _notify_data_broadcasting_callbacks e.data_broadcasting_callbacks
      vital_signs }

/-- `PatientVitalsSimulationEngine.start_continuous_vital_signs_simulation`:
no-op returning `False` when already running, otherwise sets the flag
(and spawns the loop thread, not modelled) and returns `True`. -/
def start_continuous_vital_signs_simulation (e : PatientVitalsSimulationEngine) :
    PatientVitalsSimulationEngine × Bool :=
  if e.is_continuous_simulation_running then (e, false)
  else ({ e with is_continuous_simulation_running := true }, true)

/-- `PatientVitalsSimulationEngine.stop_continuous_vital_signs_simulation`:
no-op returning `False` when idle, otherwise clears the flag and
returns `True`. -/
def stop_continuous_vital_signs_simulation (e : PatientVitalsSimulationEngine) :
    PatientVitalsSimulationEngine × Bool :=
  if e.is_continuous_simulation_running then
    ({ e with is_continuous_simulation_running := false }, true)
  else (e, false)

/-- `VitalSignsValueGenerator.__init__`: the custom-range dict starts
empty. -/
def generatorInit : VitalSignsValueGenerator := ⟨fun _ => none⟩

/-- `PatientVitalsSimulationEngine.__init__` (defaults from
`config_settings`). -/
def engineInit : PatientVitalsSimulationEngine :=
  { current_simulation_mode := .NORMAL_HEALTHY_PATIENT
    data_generation_interval_seconds := 10
    target_patient_identifier := "patient_001"
    monitoring_device_identifier := "BioHarness_Sim_001"
    is_continuous_simulation_running := false
    vital_signs_generator := generatorInit
    most_recent_vital_signs := none
    data_broadcasting_callbacks := [] }

/-- A value with at most one decimal place: an integer multiple of
`1/10`. -/
def IsDecimal1 (x : ℚ) : Prop := ∃ k : ℤ, x = (k : ℚ) / 10

lemma roundTo1_isDecimal1 (x : ℚ) : IsDecimal1 (roundTo1 x) := ⟨round (10 * x), rfl⟩

lemma uniformDraw_mem (a b u : ℚ) (hab : a ≤ b) (h0 : 0 ≤ u) (h1 : u ≤ 1) :
    a ≤ uniformDraw a b u ∧ uniformDraw a b u ≤ b := by
  unfold uniformDraw
  constructor
  · nlinarith
  · nlinarith

lemma le_roundTo1 (k : ℤ) (x : ℚ) (h : (k : ℚ) / 10 ≤ x) : (k : ℚ) / 10 ≤ roundTo1 x := by
  unfold roundTo1
  have hk : (k : ℚ) ≤ 10 * x + 1/2 := by linarith
  have hr : k ≤ round (10 * x) := by
    rw [round_eq]
    exact Int.le_floor.mpr hk
  have hq : (k : ℚ) ≤ (round (10 * x) : ℤ) := by exact_mod_cast hr
  linarith

lemma roundTo1_le (k : ℤ) (x : ℚ) (h : x ≤ (k : ℚ) / 10) : roundTo1 x ≤ (k : ℚ) / 10 := by
  unfold roundTo1
  have hk : 10 * x + 1/2 < ((k + 1 : ℤ) : ℚ) := by push_cast; linarith
  have hr : round (10 * x) ≤ k := by
    rw [round_eq]
    exact Int.lt_add_one_iff.mp (Int.floor_lt.mpr hk)
  have hq : ((round (10 * x) : ℤ) : ℚ) ≤ (k : ℚ) := by exact_mod_cast hr
  linarith

lemma roundTo1_mem_of_le (a b x : ℚ) (hda : IsDecimal1 a) (hdb : IsDecimal1 b)
    (hax : a ≤ x) (hxb : x ≤ b) : a ≤ roundTo1 x ∧ roundTo1 x ≤ b := by
  obtain ⟨ka, hka⟩ := hda
  obtain ⟨kb, hkb⟩ := hdb
  subst hka hkb
  exact ⟨le_roundTo1 ka x hax, roundTo1_le kb x hxb⟩

lemma roundTo1_uniformDraw_mem (a b u : ℚ) (hda : IsDecimal1 a) (hdb : IsDecimal1 b)
    (hab : a ≤ b) (h0 : 0 ≤ u) (h1 : u ≤ 1) :
    a ≤ roundTo1 (uniformDraw a b u) ∧ roundTo1 (uniformDraw a b u) ≤ b := by
  obtain ⟨hl, hr⟩ := uniformDraw_mem a b u hab h0 h1
  exact roundTo1_mem_of_le a b _ hda hdb hl hr

lemma normal_table_facts (vt : VitalSignType) :
    IsDecimal1 (NORMAL_VITAL_RANGES vt).1 ∧ IsDecimal1 (NORMAL_VITAL_RANGES vt).2 ∧
      (NORMAL_VITAL_RANGES vt).1 ≤ (NORMAL_VITAL_RANGES vt).2 := by
  have h : ∀ x : ℚ, ∀ k : ℤ, x = (k : ℚ) / 10 → IsDecimal1 x := fun x k hk => ⟨k, hk⟩
  cases vt
  · exact ⟨h _ 600 (by norm_num [NORMAL_VITAL_RANGES]), h _ 1000 (by norm_num [NORMAL_VITAL_RANGES]),
      by norm_num [NORMAL_VITAL_RANGES]⟩
  · exact ⟨h _ 900 (by norm_num [NORMAL_VITAL_RANGES]), h _ 1400 (by norm_num [NORMAL_VITAL_RANGES]),
      by norm_num [NORMAL_VITAL_RANGES]⟩
  · exact ⟨h _ 600 (by norm_num [NORMAL_VITAL_RANGES]), h _ 900 (by norm_num [NORMAL_VITAL_RANGES]),
      by norm_num [NORMAL_VITAL_RANGES]⟩
  · exact ⟨h _ 950 (by norm_num [NORMAL_VITAL_RANGES]), h _ 1000 (by norm_num [NORMAL_VITAL_RANGES]),
      by norm_num [NORMAL_VITAL_RANGES]⟩
  · exact ⟨h _ 361 (by norm_num [NORMAL_VITAL_RANGES]), h _ 372 (by norm_num [NORMAL_VITAL_RANGES]),
      by norm_num [NORMAL_VITAL_RANGES]⟩
  · exact ⟨h _ 120 (by norm_num [NORMAL_VITAL_RANGES]), h _ 200 (by norm_num [NORMAL_VITAL_RANGES]),
      by norm_num [NORMAL_VITAL_RANGES]⟩

lemma abnormal_table_facts (vt : VitalSignType) :
    IsDecimal1 (ABNORMAL_VITAL_RANGES vt).1 ∧ IsDecimal1 (ABNORMAL_VITAL_RANGES vt).2 ∧
      (ABNORMAL_VITAL_RANGES vt).1 ≤ (ABNORMAL_VITAL_RANGES vt).2 := by
  have h : ∀ x : ℚ, ∀ k : ℤ, x = (k : ℚ) / 10 → IsDecimal1 x := fun x k hk => ⟨k, hk⟩
  cases vt
  · exact ⟨h _ 400 (by norm_num [ABNORMAL_VITAL_RANGES]), h _ 1800 (by norm_num [ABNORMAL_VITAL_RANGES]),
      by norm_num [ABNORMAL_VITAL_RANGES]⟩
  · exact ⟨h _ 700 (by norm_num [ABNORMAL_VITAL_RANGES]), h _ 2000 (by norm_num [ABNORMAL_VITAL_RANGES]),
      by norm_num [ABNORMAL_VITAL_RANGES]⟩
  · exact ⟨h _ 400 (by norm_num [ABNORMAL_VITAL_RANGES]), h _ 1200 (by norm_num [ABNORMAL_VITAL_RANGES]),
      by norm_num [ABNORMAL_VITAL_RANGES]⟩
  · exact ⟨h _ 850 (by norm_num [ABNORMAL_VITAL_RANGES]), h _ 940 (by norm_num [ABNORMAL_VITAL_RANGES]),
      by norm_num [ABNORMAL_VITAL_RANGES]⟩
  · exact ⟨h _ 350 (by norm_num [ABNORMAL_VITAL_RANGES]), h _ 400 (by norm_num [ABNORMAL_VITAL_RANGES]),
      by norm_num [ABNORMAL_VITAL_RANGES]⟩
  · exact ⟨h _ 80 (by norm_num [ABNORMAL_VITAL_RANGES]), h _ 300 (by norm_num [ABNORMAL_VITAL_RANGES]),
      by norm_num [ABNORMAL_VITAL_RANGES]⟩

/-- C5: for min ≥ max, `set_custom_vital_range` fails with the
validation error and leaves the generator state (including any earlier
override for that vital type) unchanged; for min < max the override is
stored and `get_vital_range_for_mode` returns it for every mode, taking
precedence over the static tables. -/
theorem c5_set_override_validation (g : VitalSignsValueGenerator) (vt : VitalSignType)
    (mn mx : ℚ) :
    (mn ≥ mx →
      set_custom_vital_range g vt mn mx
        = (g, some "Minimum value must be less than maximum value")) ∧
    (mn < mx →
      (set_custom_vital_range g vt mn mx).2 = none ∧
      (set_custom_vital_range g vt mn mx).1.custom_vital_ranges vt = some (mn, mx) ∧
      ∀ mode, get_vital_range_for_mode (set_custom_vital_range g vt mn mx).1 vt mode
        = (mn, mx)) := by
  constructor
  · intro h
    simp [set_custom_vital_range, h]
  · intro h
    have hne : ¬ mn ≥ mx := not_le.mpr h
    refine ⟨by simp [set_custom_vital_range, hne], ?_, ?_⟩
    · simp [set_custom_vital_range, hne]
    · intro mode
      simp [set_custom_vital_range, hne, get_vital_range_for_mode]

/-- C5 witness: a rejected override at (5, 2) on the fresh generator,
and an accepted override at (50, 60) visible through
`get_vital_range_for_mode` in abnormal mode. -/
theorem c5_set_override_validation_instance :
    set_custom_vital_range generatorInit .HEART_RATE 5 2
      = (generatorInit, some "Minimum value must be less than maximum value") ∧
    get_vital_range_for_mode (set_custom_vital_range generatorInit .HEART_RATE 50 60).1
      .HEART_RATE .ABNORMAL_CONDITION_PATIENT = (50, 60) := by
  constructor
  · exact (c5_set_override_validation generatorInit .HEART_RATE 5 2).1 (by norm_num)
  · exact ((c5_set_override_validation generatorInit .HEART_RATE 50 60).2
      (by norm_num)).2.2 .ABNORMAL_CONDITION_PATIENT

/-- C6: `start` returns `True` and sets the running flag exactly when
the engine is idle and is a `False` no-op when already running (so two
consecutive calls from idle return `True` then `False`); `stop` returns
`True` and clears the flag exactly when running and is a `False` no-op
when idle. -/
theorem c6_start_stop_state_machine (e : PatientVitalsSimulationEngine) :
    (e.is_continuous_simulation_running = false →
      (start_continuous_vital_signs_simulation e).2 = true ∧
      (start_continuous_vital_signs_simulation e).1.is_continuous_simulation_running = true ∧
      (start_continuous_vital_signs_simulation
        (start_continuous_vital_signs_simulation e).1).2 = false) ∧
    (e.is_continuous_simulation_running = true →
      start_continuous_vital_signs_simulation e = (e, false)) ∧
    (e.is_continuous_simulation_running = true →
      (stop_continuous_vital_signs_simulation e).2 = true ∧
      (stop_continuous_vital_signs_simulation e).1.is_continuous_simulation_running = false) ∧
    (e.is_continuous_simulation_running = false →
      stop_continuous_vital_signs_simulation e = (e, false)) := by
  refine ⟨fun h => ?_, fun h => ?_, fun h => ?_, fun h => ?_⟩
  · simp [start_continuous_vital_signs_simulation, h]
  · simp [start_continuous_vital_signs_simulation, h]
  · simp [stop_continuous_vital_signs_simulation, h]
  · simp [stop_continuous_vital_signs_simulation, h]

/-- C6 witness: on the freshly constructed (idle) engine, `start`
returns `True`, a second `start` returns `False`, and `stop` on the
idle engine returns `False`. -/
theorem c6_start_stop_state_machine_instance :
    (start_continuous_vital_signs_simulation engineInit).2 = true ∧
    (start_continuous_vital_signs_simulation
      (start_continuous_vital_signs_simulation engineInit).1).2 = false ∧
    (stop_continuous_vital_signs_simulation engineInit).2 = false := by
  have h := c6_start_stop_state_machine engineInit
  exact ⟨(h.1 rfl).1, (h.1 rfl).2.2, congrArg Prod.snd (h.2.2.2 rfl)⟩

/-- C8: the `requires_immediate_processing` flag computed by
`_determine_urgency_level` is true exactly when one of the fixed
critical thresholds is crossed or the reading's mode string is
"emergency". -/
theorem c8_urgency_flag_iff (vs : PatientVitalSigns) :
    _determine_urgency_level vs = true ↔
      (vs.heart_rate_bpm < 40 ∨ vs.heart_rate_bpm > 150 ∨
       vs.blood_pressure_systolic_mmhg < 70 ∨ vs.blood_pressure_systolic_mmhg > 180 ∨
       vs.oxygen_saturation_percentage < 85 ∨
       vs.body_temperature_celsius < 35 ∨ vs.body_temperature_celsius > 40 ∨
       vs.respiratory_rate_per_minute < 8 ∨ vs.respiratory_rate_per_minute > 30 ∨
       vs.simulation_mode_used = "emergency") := by
  unfold _determine_urgency_level
  split_ifs with h1 h2 h3 h4 h5 h6 <;> simp_all <;> tauto

lemma sendAttemptsFrom_first_response (dn url : String) (ts maxA : ℤ)
    (network : Nat → RequestOutcome) (now : String) :
    ∀ (i fuel attempt : Nat) (lastExn : Option String), i < fuel →
    (∀ j, j < i → isNetworkFailure (network (attempt + j)) = true) →
    ∀ s t, network (attempt + i) = RequestOutcome.response s t →
    sendAttemptsFrom dn url ts maxA network now attempt fuel lastExn
      = if s = 200 ∨ s = 201 ∨ s = 202 then
          { destination_name := dn, was_successful := true, error_message := none,
            response_status_code := some s, transmission_timestamp := some now }
        else
          { destination_name := dn, was_successful := false,
            error_message := some ("HTTP " ++ toString s ++ ": " ++ t),
            response_status_code := some s, transmission_timestamp := some now } := by
  intro i
  induction i with
  | zero =>
      intro fuel attempt lastExn hlt _ s t hresp
      obtain ⟨f, rfl⟩ : ∃ f, fuel = f + 1 :=
        ⟨fuel - 1, (Nat.succ_pred_eq_of_pos hlt).symm⟩
      rw [Nat.add_zero] at hresp
      simp [sendAttemptsFrom, hresp]
  | succ i ih =>
      intro fuel attempt lastExn hlt hfail s t hresp
      obtain ⟨f, rfl⟩ : ∃ f, fuel = f + 1 :=
        ⟨fuel - 1, (Nat.succ_pred_eq_of_pos (Nat.lt_of_le_of_lt (Nat.zero_le _) hlt)).symm⟩
      have h0 : isNetworkFailure (network attempt) = true := by
        have := hfail 0 (Nat.succ_pos i)
        rwa [Nat.add_zero] at this
      have hstep : sendAttemptsFrom dn url ts maxA network now attempt (f + 1) lastExn
          = sendAttemptsFrom dn url ts maxA network now (attempt + 1) f
            (exceptionMessage url ts (network attempt)) := by
        cases hn : network attempt <;> simp [isNetworkFailure, hn] at h0 ⊢ <;>
          simp [sendAttemptsFrom, hn, exceptionMessage]
      rw [hstep]
      have hfail' : ∀ j, j < i → isNetworkFailure (network (attempt + 1 + j)) = true := by
        intro j hj
        have := hfail (j + 1) (Nat.succ_lt_succ hj)
        rwa [show attempt + (j + 1) = attempt + 1 + j by omega] at this
      have hresp' : network (attempt + 1 + i) = RequestOutcome.response s t := by
        rwa [show attempt + (i + 1) = attempt + 1 + i by omega] at hresp
      exact ih f (attempt + 1) _ (Nat.lt_of_succ_lt_succ hlt) hfail' s t hresp'

lemma sendAttemptsFrom_all_failures (dn url : String) (ts maxA : ℤ)
    (network : Nat → RequestOutcome) (now : String) :
    ∀ (fuel attempt : Nat) (lastExn : Option String),
    (∀ j, j < fuel + 1 → isNetworkFailure (network (attempt + j)) = true) →
    sendAttemptsFrom dn url ts maxA network now attempt (fuel + 1) lastExn
      = { destination_name := dn, was_successful := false,
          error_message := some ("Failed after " ++ toString maxA
            ++ " attempts. Last error: "
            ++ pyStrOfOption (exceptionMessage url ts (network (attempt + fuel)))),
          response_status_code := none, transmission_timestamp := some now } := by
  intro fuel
  induction fuel with
  | zero =>
      intro attempt lastExn hfail
      have h0 : isNetworkFailure (network attempt) = true := by
        have := hfail 0 Nat.zero_lt_one
        rwa [Nat.add_zero] at this
      rw [Nat.add_zero]
      cases hn : network attempt <;> simp [isNetworkFailure, hn] at h0 ⊢ <;>
        simp [sendAttemptsFrom, hn, exceptionMessage]
  | succ f ih =>
      intro attempt lastExn hfail
      have h0 : isNetworkFailure (network attempt) = true := by
        have := hfail 0 (Nat.succ_pos _)
        rwa [Nat.add_zero] at this
      have hstep : sendAttemptsFrom dn url ts maxA network now attempt (f + 1 + 1) lastExn
          = sendAttemptsFrom dn url ts maxA network now (attempt + 1) (f + 1)
            (exceptionMessage url ts (network attempt)) := by
        cases hn : network attempt <;> simp [isNetworkFailure, hn] at h0 ⊢ <;>
          simp [sendAttemptsFrom, hn, exceptionMessage]
      rw [hstep]
      have hfail' : ∀ j, j < f + 1 → isNetworkFailure (network (attempt + 1 + j)) = true := by
        intro j hj
        have := hfail (j + 1) (Nat.succ_lt_succ hj)
        rwa [show attempt + (j + 1) = attempt + 1 + j by omega] at this
      rw [ih (attempt + 1) _ hfail']
      rw [show attempt + 1 + f = attempt + (f + 1) by omega]

/-- C2: the delivery retry policy of
`_send_http_post_request_with_retries`.  If attempt `i` (0-based, within
the budget) is the first one that gets an HTTP response at all, a
200/201/202 status yields an immediate success result carrying that
status and any other status yields an immediate failure result carrying
the status and text (no further attempts); if every attempt in the
budget hits a network-level failure, the returned failure's message
names the attempt budget and the last observed error.  In particular a
timeout on attempt 1 followed by HTTP 200 on attempt 2 yields a success
with status 200. -/
theorem c2_delivery_retry_policy (dn url : String) (payload : JsonValue) (ts maxA : ℤ)
    (network : Nat → RequestOutcome) (now : String) :
    (∀ i s t, i < maxA.toNat →
      (∀ j, j < i → isNetworkFailure (network j) = true) →
      network i = RequestOutcome.response s t →
      _send_http_post_request_with_retries dn url payload ts maxA network now
        = if s = 200 ∨ s = 201 ∨ s = 202 then
            { destination_name := dn, was_successful := true, error_message := none,
              response_status_code := some s, transmission_timestamp := some now }
          else
            { destination_name := dn, was_successful := false,
              error_message := some ("HTTP " ++ toString s ++ ": " ++ t),
              response_status_code := some s, transmission_timestamp := some now }) ∧
    (∀ f, maxA.toNat = f + 1 →
      (∀ j, j < maxA.toNat → isNetworkFailure (network j) = true) →
      _send_http_post_request_with_retries dn url payload ts maxA network now
        = { destination_name := dn, was_successful := false,
            error_message := some ("Failed after " ++ toString maxA
              ++ " attempts. Last error: "
              ++ pyStrOfOption (exceptionMessage url ts (network f))),
            response_status_code := none, transmission_timestamp := some now }) ∧
    (network 0 = RequestOutcome.timeoutExn → 2 ≤ maxA.toNat →
      ∀ t, network 1 = RequestOutcome.response 200 t →
      _send_http_post_request_with_retries dn url payload ts maxA network now
        = { destination_name := dn, was_successful := true, error_message := none,
            response_status_code := some 200, transmission_timestamp := some now }) := by
  have key : ∀ i s t, i < maxA.toNat →
      (∀ j, j < i → isNetworkFailure (network j) = true) →
      network i = RequestOutcome.response s t →
      _send_http_post_request_with_retries dn url payload ts maxA network now
        = if s = 200 ∨ s = 201 ∨ s = 202 then
            { destination_name := dn, was_successful := true, error_message := none,
              response_status_code := some s, transmission_timestamp := some now }
          else
            { destination_name := dn, was_successful := false,
              error_message := some ("HTTP " ++ toString s ++ ": " ++ t),
              response_status_code := some s, transmission_timestamp := some now } := by
    intro i s t hi hfail hresp
    unfold _send_http_post_request_with_retries
    exact sendAttemptsFrom_first_response dn url ts maxA network now i maxA.toNat 0 none hi
      (by intro j hj; simpa using hfail j hj) s t (by simpa using hresp)
  refine ⟨key, ?_, ?_⟩
  · intro f hf hfail
    unfold _send_http_post_request_with_retries
    rw [hf]
    have := sendAttemptsFrom_all_failures dn url ts maxA network now f 0 none
      (by intro j hj; simpa using hfail j (by omega))
    simpa using this
  · intro h0 h2 t h1
    have := key 1 200 t (by omega)
      (by
        intro j hj
        have hj0 : j = 0 := by omega
        subst hj0
        simp [h0, isNetworkFailure])
      h1
    simpa using this

/-- C2 witness: with a budget of 3 attempts, a timeout on the first
attempt followed by HTTP 200 on the second yields the successful result
with status 200. -/
theorem c2_delivery_retry_policy_instance :
    _send_http_post_request_with_retries "Rule Engine"
      "http://localhost:3000/api/vitals/stream" JsonValue.jnull 5 3
      (fun i => if i = 0 then RequestOutcome.timeoutExn else RequestOutcome.response 200 "ok")
      "2026-01-01T00:00:00"
      = { destination_name := "Rule Engine", was_successful := true, error_message := none,
          response_status_code := some 200,
          transmission_timestamp := some "2026-01-01T00:00:00" } := by
  exact (c2_delivery_retry_policy "Rule Engine" "http://localhost:3000/api/vitals/stream"
    JsonValue.jnull 5 3
    (fun i => if i = 0 then RequestOutcome.timeoutExn else RequestOutcome.response 200 "ok")
    "2026-01-01T00:00:00").2.2 (by simp) (by norm_num) "ok" (by simp)

/-- C10: a call of the delivery routine with a non-positive attempt
budget makes no network attempt at all (the result does not depend on
the network oracle) and returns a failed result whose message reports
failure after `max_retry_attempts` attempts with a last error of
`None`, carrying no HTTP status code. -/
theorem c10_nonpositive_budget_no_attempt (dn url : String) (payload : JsonValue)
    (ts maxA : ℤ) (network : Nat → RequestOutcome) (now : String) (h : maxA ≤ 0) :
    _send_http_post_request_with_retries dn url payload ts maxA network now
      = { destination_name := dn, was_successful := false,
          error_message := some ("Failed after " ++ toString maxA
            ++ " attempts. Last error: None"),
          response_status_code := none, transmission_timestamp := some now } ∧
    ∀ network', _send_http_post_request_with_retries dn url payload ts maxA network now
      = _send_http_post_request_with_retries dn url payload ts maxA network' now := by
  have h0 : maxA.toNat = 0 := Int.toNat_of_nonpos h
  constructor
  · unfold _send_http_post_request_with_retries
    rw [h0]
    simp only [sendAttemptsFrom, pyStrOfOption]
    rw [String.append_assoc]
    rfl
  · intro network'
    unfold _send_http_post_request_with_retries
    rw [h0]
    simp [sendAttemptsFrom]

/-- C10 witness: budget -1 yields the "Failed after -1 attempts. Last
error: None" failure, identically for two different network oracles. -/
theorem c10_nonpositive_budget_no_attempt_instance :
    _send_http_post_request_with_retries "User Interface"
      "http://localhost:3001/api/vitals/update" JsonValue.jnull 3 (-1)
      (fun _ => RequestOutcome.timeoutExn) "T"
      = { destination_name := "User Interface", was_successful := false,
          error_message := some "Failed after -1 attempts. Last error: None",
          response_status_code := none, transmission_timestamp := some "T" } ∧
    _send_http_post_request_with_retries "User Interface"
      "http://localhost:3001/api/vitals/update" JsonValue.jnull 3 (-1)
      (fun _ => RequestOutcome.timeoutExn) "T"
      = _send_http_post_request_with_retries "User Interface"
        "http://localhost:3001/api/vitals/update" JsonValue.jnull 3 (-1)
        (fun _ => RequestOutcome.response 200 "ok") "T" := by
  have h := c10_nonpositive_budget_no_attempt "User Interface"
    "http://localhost:3001/api/vitals/update" JsonValue.jnull 3 (-1)
    (fun _ => RequestOutcome.timeoutExn) "T" (by norm_num)
  exact ⟨h.1, h.2 (fun _ => RequestOutcome.response 200 "ok")⟩

lemma sendAttemptsFrom_destination (dn url : String) (ts maxA : ℤ)
    (network : Nat → RequestOutcome) (now : String) :
    ∀ (fuel attempt : Nat) (lastExn : Option String),
    (sendAttemptsFrom dn url ts maxA network now attempt fuel lastExn).destination_name = dn := by
  intro fuel
  induction fuel with
  | zero => intro attempt lastExn; simp [sendAttemptsFrom]
  | succ f ih =>
      intro attempt lastExn
      cases hn : network attempt with
      | response s t =>
          by_cases hs : s = 200 ∨ s = 201 ∨ s = 202 <;> simp [sendAttemptsFrom, hn, hs]
      | timeoutExn => simp [sendAttemptsFrom, hn, ih]
      | connectionErrorExn => simp [sendAttemptsFrom, hn, ih]
      | requestExceptionExn m => simp [sendAttemptsFrom, hn, ih]
      | unexpectedExn m => simp [sendAttemptsFrom, hn, ih]

/-- C7: `broadcast_vital_signs_to_all_destinations` returns exactly one
result per enabled destination and never attempts a disabled one: with
the rule engine disabled and the UI enabled the result list is exactly
the UI destination's single result; with both enabled it is the
rule-engine result followed by the UI result, and each entry depends
only on its own destination's network oracle, so one destination's
failure never removes or alters the other's result. -/
theorem c7_dispatch_per_enabled_destination (b : VitalSignsDataBroadcaster)
    (vs : PatientVitalSigns) (netR netU netR' : Nat → RequestOutcome) (now : String) :
    (broadcast_vital_signs_to_all_destinations b vs netR netU now).length
      = (if b.is_rule_engine_broadcasting_enabled then 1 else 0)
        + (if b.is_ui_broadcasting_enabled then 1 else 0) ∧
    (b.is_rule_engine_broadcasting_enabled = false → b.is_ui_broadcasting_enabled = true →
      broadcast_vital_signs_to_all_destinations b vs netR netU now
        = [broadcast_to_user_interface b vs netU now] ∧
      (broadcast_to_user_interface b vs netU now).destination_name = "User Interface") ∧
    (b.is_rule_engine_broadcasting_enabled = true → b.is_ui_broadcasting_enabled = true →
      broadcast_vital_signs_to_all_destinations b vs netR netU now
        = [broadcast_to_rule_engine b vs netR now, broadcast_to_user_interface b vs netU now] ∧
      broadcast_vital_signs_to_all_destinations b vs netR' netU now
        = [broadcast_to_rule_engine b vs netR' now,
           broadcast_to_user_interface b vs netU now]) := by
  refine ⟨?_, fun hr hu => ⟨?_, ?_⟩, fun hr hu => ⟨?_, ?_⟩⟩
  · by_cases h1 : b.is_rule_engine_broadcasting_enabled <;>
      by_cases h2 : b.is_ui_broadcasting_enabled <;>
      simp [broadcast_vital_signs_to_all_destinations, h1, h2]
  · simp [broadcast_vital_signs_to_all_destinations, hr, hu]
  · exact sendAttemptsFrom_destination "User Interface" b.ui_endpoint_url
      UI_CONNECTION_TIMEOUT_SECONDS MAX_BROADCASTING_RETRIES netU now _ 0 none
  · simp [broadcast_vital_signs_to_all_destinations, hr, hu]
  · simp [broadcast_vital_signs_to_all_destinations, hr, hu]

/-- C7 witness: with the rule engine disabled and the UI enabled (both
destinations' servers timing out), dispatching a fresh reading yields
exactly one result and it is for the UI destination. -/
theorem c7_dispatch_per_enabled_destination_instance :
    (broadcast_vital_signs_to_all_destinations
      ⟨"http://localhost:3000/api/vitals/stream", "http://localhost:3001/api/vitals/update",
        false, true⟩
      (create_current_timestamp_reading 72 120 80 98 (366/10) 16 .NORMAL_HEALTHY_PATIENT
        "BioHarness_Sim_001" "patient_001" "2026-01-01T00:00:00")
      (fun _ => RequestOutcome.timeoutExn) (fun _ => RequestOutcome.timeoutExn) "T").length = 1 ∧
    ((broadcast_vital_signs_to_all_destinations
      ⟨"http://localhost:3000/api/vitals/stream", "http://localhost:3001/api/vitals/update",
        false, true⟩
      (create_current_timestamp_reading 72 120 80 98 (366/10) 16 .NORMAL_HEALTHY_PATIENT
        "BioHarness_Sim_001" "patient_001" "2026-01-01T00:00:00")
      (fun _ => RequestOutcome.timeoutExn) (fun _ => RequestOutcome.timeoutExn) "T").map
        (fun r => r.destination_name)) = ["User Interface"] := by
  have h := c7_dispatch_per_enabled_destination
    ⟨"http://localhost:3000/api/vitals/stream", "http://localhost:3001/api/vitals/update",
      false, true⟩
    (create_current_timestamp_reading 72 120 80 98 (366/10) 16 .NORMAL_HEALTHY_PATIENT
      "BioHarness_Sim_001" "patient_001" "2026-01-01T00:00:00")
    (fun _ => RequestOutcome.timeoutExn) (fun _ => RequestOutcome.timeoutExn)
    (fun _ => RequestOutcome.timeoutExn) "T"
  refine ⟨by simpa using h.1, ?_⟩
  rw [(h.2.1 rfl rfl).1]
  simp [(h.2.1 rfl rfl).2]

/-- Fixed draws used by concrete generation-cycle instances: every
vital uses `(r1, r2, u) = (0, 0, 1/2)`. -/
def sampleDraws : VitalSignType → ℚ × ℚ × ℚ := fun _ => (0, 0, 1/2)

/-- A fresh engine with two registered sinks, the first of which raises
on every invocation. -/
def sampleSinkEngine : PatientVitalsSimulationEngine :=
  { engineInit with
      data_broadcasting_callbacks :=
        [fun _ => Except.error "sink boom", fun _ => Except.ok ()] }

/-- C4: during a `generate_single_vital_signs_reading` cycle, sink
exceptions are isolated per sink: every registered callback is invoked
with the same reading (the outcome trace has one entry per callback,
each equal to that callback applied to the reading), the reading is
stored as the most recent one, the callback list is left unchanged (a
failing sink stays registered), and the cycle returns the reading. -/
theorem c4_sink_failure_isolation (e : PatientVitalsSimulationEngine)
    (d : VitalSignType → ℚ × ℚ × ℚ) (now : String) (res : GenerationCycleResult)
    (hres : res = generate_single_vital_signs_reading e d now) :
    res.engine.most_recent_vital_signs = some res.reading ∧
    res.engine.data_broadcasting_callbacks = e.data_broadcasting_callbacks ∧
    res.sink_outcomes.length = e.data_broadcasting_callbacks.length ∧
    ∀ i (h : i < e.data_broadcasting_callbacks.length)
      (h2 : i < res.sink_outcomes.length),
      res.sink_outcomes.get ⟨i, h2⟩
        = (e.data_broadcasting_callbacks.get ⟨i, h⟩) res.reading := by
  subst hres
  refine ⟨rfl, rfl, ?_, ?_⟩
  · simp [generate_single_vital_signs_reading, _notify_data_broadcasting_callbacks]
  · intro i h h2
    simp [generate_single_vital_signs_reading, _notify_data_broadcasting_callbacks]

/-- C4 witness: on an engine whose first sink always raises, the cycle
still stores the reading, keeps both sinks registered, and produces one
outcome per sink — the raising first sink's error next to the second
sink's success. -/
theorem c4_sink_failure_isolation_instance :
    (generate_single_vital_signs_reading
        sampleSinkEngine sampleDraws "T").engine.most_recent_vital_signs
      = some (generate_single_vital_signs_reading sampleSinkEngine sampleDraws "T").reading ∧
    (generate_single_vital_signs_reading
        sampleSinkEngine sampleDraws "T").engine.data_broadcasting_callbacks
      = sampleSinkEngine.data_broadcasting_callbacks ∧
    (generate_single_vital_signs_reading sampleSinkEngine sampleDraws "T").sink_outcomes.length
      = sampleSinkEngine.data_broadcasting_callbacks.length ∧
    (generate_single_vital_signs_reading sampleSinkEngine sampleDraws "T").sink_outcomes
      = [Except.error "sink boom", Except.ok ()] := by
  have h := c4_sink_failure_isolation sampleSinkEngine sampleDraws "T" _ rfl
  exact ⟨h.1, h.2.1, h.2.2.1, rfl⟩

/-- C9: in every reading assembled by
`generate_single_vital_signs_reading`, the heart-rate, systolic,
diastolic, oxygen-saturation and respiratory-rate fields are `int(...)`
truncations toward zero of the generator's sampled values, while the
body-temperature field keeps the sampled one-decimal value; `truncQ`
is truncation toward zero (equal to the floor above zero and to the
ceiling below). -/
theorem c9_reading_integer_truncation (e : PatientVitalsSimulationEngine)
    (d : VitalSignType → ℚ × ℚ × ℚ) (now : String) (res : GenerationCycleResult)
    (hres : res = generate_single_vital_signs_reading e d now) :
    res.reading.heart_rate_bpm
      = truncQ (generate_vital_sign_value e.vital_signs_generator .HEART_RATE
          e.current_simulation_mode (d .HEART_RATE).1 (d .HEART_RATE).2.1
          (d .HEART_RATE).2.2) ∧
    res.reading.blood_pressure_systolic_mmhg
      = truncQ (generate_vital_sign_value e.vital_signs_generator .BLOOD_PRESSURE_SYSTOLIC
          e.current_simulation_mode (d .BLOOD_PRESSURE_SYSTOLIC).1
          (d .BLOOD_PRESSURE_SYSTOLIC).2.1 (d .BLOOD_PRESSURE_SYSTOLIC).2.2) ∧
    res.reading.blood_pressure_diastolic_mmhg
      = truncQ (generate_vital_sign_value e.vital_signs_generator .BLOOD_PRESSURE_DIASTOLIC
          e.current_simulation_mode (d .BLOOD_PRESSURE_DIASTOLIC).1
          (d .BLOOD_PRESSURE_DIASTOLIC).2.1 (d .BLOOD_PRESSURE_DIASTOLIC).2.2) ∧
    res.reading.oxygen_saturation_percentage
      = truncQ (generate_vital_sign_value e.vital_signs_generator .OXYGEN_SATURATION
          e.current_simulation_mode (d .OXYGEN_SATURATION).1
          (d .OXYGEN_SATURATION).2.1 (d .OXYGEN_SATURATION).2.2) ∧
    res.reading.body_temperature_celsius
      = generate_vital_sign_value e.vital_signs_generator .BODY_TEMPERATURE
          e.current_simulation_mode (d .BODY_TEMPERATURE).1
          (d .BODY_TEMPERATURE).2.1 (d .BODY_TEMPERATURE).2.2 ∧
    res.reading.respiratory_rate_per_minute
      = truncQ (generate_vital_sign_value e.vital_signs_generator .RESPIRATORY_RATE
          e.current_simulation_mode (d .RESPIRATORY_RATE).1
          (d .RESPIRATORY_RATE).2.1 (d .RESPIRATORY_RATE).2.2) ∧
    (∀ x : ℚ, 0 ≤ x → ((truncQ x : ℚ) ≤ x ∧ x - 1 < (truncQ x : ℚ))) ∧
    (∀ x : ℚ, x < 0 → (x ≤ (truncQ x : ℚ) ∧ (truncQ x : ℚ) < x + 1)) := by
  subst hres
  refine ⟨rfl, rfl, rfl, rfl, rfl, rfl, ?_, ?_⟩
  · intro x hx
    rw [truncQ, if_pos hx]
    exact ⟨Int.floor_le x, Int.sub_one_lt_floor x⟩
  · intro x hx
    rw [truncQ, if_neg (not_le.mpr hx)]
    exact ⟨Int.le_ceil x, Int.ceil_lt_add_one x⟩

/-- C9 witness: on the fresh engine with the fixed draws, the
heart-rate field is the truncation of the sampled heart-rate value, the
temperature field is the sampled temperature itself, and the truncation
brackets hold at the sample value 80.5. -/
theorem c9_reading_integer_truncation_instance :
    (generate_single_vital_signs_reading engineInit sampleDraws "T").reading.heart_rate_bpm
      = truncQ (generate_vital_sign_value engineInit.vital_signs_generator .HEART_RATE
          engineInit.current_simulation_mode 0 0 (1/2)) ∧
    (generate_single_vital_signs_reading
        engineInit sampleDraws "T").reading.body_temperature_celsius
      = generate_vital_sign_value engineInit.vital_signs_generator .BODY_TEMPERATURE
          engineInit.current_simulation_mode 0 0 (1/2) ∧
    (truncQ (805/10) : ℚ) ≤ 805/10 ∧ (805/10 : ℚ) - 1 < (truncQ (805/10) : ℚ) := by
  have h := c9_reading_integer_truncation engineInit sampleDraws "T" _ rfl
  have hn := h.2.2.2.2.2.2.1 (805/10) (by norm_num)
  exact ⟨h.1, h.2.2.2.2.1, hn.1, hn.2⟩

/-- A concrete in-range reading used to evaluate the rule-engine
submission path. -/
def sampleReading : PatientVitalSigns :=
  create_current_timestamp_reading 72 120 80 98 (366/10) 16 .NORMAL_HEALTHY_PATIENT
    "BioHarness_Sim_001" "patient_001" "2026-01-01T00:00:00"

/-- C3: the enrichment built by
`submit_vital_signs_for_rule_evaluation` carries the rule-engine
fields (deviceId, patientId, readings, metadata, submission_source,
requires_immediate_processing, data_quality_indicators), but the
payload the method actually submits is the plain
`to_json_serializable_dict`, which carries none of them — the enriched
`rule_engine_payload` is built and then discarded. -/
theorem c3_enrichment_built_but_not_submitted :
    jsonHasKey (submit_rule_engine_payload_built sampleReading "G") "deviceId" = true ∧
    jsonHasKey (submit_rule_engine_payload_built sampleReading "G") "patientId" = true ∧
    jsonHasKey (submit_rule_engine_payload_built sampleReading "G") "readings" = true ∧
    jsonHasKey (submit_rule_engine_payload_built sampleReading "G") "metadata" = true ∧
    jsonHasKey (submit_rule_engine_payload_built sampleReading "G") "submission_source" = true ∧
    jsonHasKey (submit_rule_engine_payload_built sampleReading "G")
      "requires_immediate_processing" = true ∧
    jsonHasKey (submit_rule_engine_payload_built sampleReading "G")
      "data_quality_indicators" = true ∧
    jsonHasKey (submit_rule_engine_payload_sent sampleReading) "deviceId" = false ∧
    jsonHasKey (submit_rule_engine_payload_sent sampleReading) "patientId" = false ∧
    jsonHasKey (submit_rule_engine_payload_sent sampleReading) "readings" = false ∧
    jsonHasKey (submit_rule_engine_payload_sent sampleReading) "submission_source" = false ∧
    jsonHasKey (submit_rule_engine_payload_sent sampleReading)
      "requires_immediate_processing" = false ∧
    jsonHasKey (submit_rule_engine_payload_sent sampleReading)
      "data_quality_indicators" = false := by
  refine ⟨rfl, rfl, rfl, rfl, ?_, ?_, ?_, rfl, rfl, rfl, rfl, rfl, rfl⟩ <;> decide

lemma generate_vital_sign_value_decimal (g : VitalSignsValueGenerator) (vt : VitalSignType)
    (mode : PatientSimulationMode) (r1 r2 u : ℚ) :
    IsDecimal1 (generate_vital_sign_value g vt mode r1 r2 u) := by
  cases mode
  · exact roundTo1_isDecimal1 _
  · simp only [generate_vital_sign_value, _generate_abnormal_patient_value]
    split_ifs <;> exact roundTo1_isDecimal1 _
  · simp only [generate_vital_sign_value, _generate_emergency_patient_value]
    split_ifs <;> exact roundTo1_isDecimal1 _

lemma _generate_normal_patient_value_mem (a b u : ℚ) (hd1 : IsDecimal1 a)
    (hd2 : IsDecimal1 b) (hle : a ≤ b) :
    a ≤ _generate_normal_patient_value a b u ∧ _generate_normal_patient_value a b u ≤ b := by
  unfold _generate_normal_patient_value
  exact roundTo1_mem_of_le a b _ hd1 hd2 (le_max_left _ _) (max_le hle (min_le_left _ _))

lemma _generate_abnormal_patient_value_spike_mem (vt : VitalSignType) (a b r1 r2 u : ℚ)
    (hd1 : IsDecimal1 a) (hd2 : IsDecimal1 b) (hle : a ≤ b) (hr : r1 < 3/10)
    (h0 : 0 ≤ u) (h1 : u ≤ 1) :
    a ≤ _generate_abnormal_patient_value vt a b r1 r2 u ∧
      _generate_abnormal_patient_value vt a b r1 r2 u ≤ b := by
  unfold _generate_abnormal_patient_value
  rw [if_pos hr]
  by_cases h2 : r2 < 1/2
  · rw [if_pos h2]
    have hq1 : a ≤ a + (b - a) * (1/4) := by nlinarith
    have hq2 : a + (b - a) * (1/4) ≤ b := by nlinarith
    have hu := uniformDraw_mem a (a + (b - a) * (1/4)) u hq1 h0 h1
    exact roundTo1_mem_of_le a b _ hd1 hd2 hu.1 (le_trans hu.2 hq2)
  · rw [if_neg h2]
    have hq1 : a ≤ b - (b - a) * (1/4) := by nlinarith
    have hq2 : b - (b - a) * (1/4) ≤ b := by nlinarith
    have hu := uniformDraw_mem (b - (b - a) * (1/4)) b u hq2 h0 h1
    exact roundTo1_mem_of_le a b _ hd1 hd2 (le_trans hq1 hu.1) hu.2

lemma _generate_abnormal_patient_value_fallback_mem (vt : VitalSignType) (a b r1 r2 u : ℚ)
    (hr : 3/10 ≤ r1) (h0 : 0 ≤ u) (h1 : u ≤ 1) :
    (NORMAL_VITAL_RANGES vt).1 ≤ _generate_abnormal_patient_value vt a b r1 r2 u ∧
      _generate_abnormal_patient_value vt a b r1 r2 u ≤ (NORMAL_VITAL_RANGES vt).2 := by
  unfold _generate_abnormal_patient_value
  rw [if_neg (not_lt.mpr hr)]
  obtain ⟨hd1, hd2, hle⟩ := normal_table_facts vt
  exact roundTo1_uniformDraw_mem _ _ u hd1 hd2 hle h0 h1

lemma _generate_emergency_patient_value_spike_mem (vt : VitalSignType) (a b r1 r2 u : ℚ)
    (hd1 : IsDecimal1 a) (hd2 : IsDecimal1 b) (hle : a ≤ b) (hr : r1 < 3/4)
    (h0 : 0 ≤ u) (h1 : u ≤ 1) :
    a ≤ _generate_emergency_patient_value vt a b r1 r2 u ∧
      _generate_emergency_patient_value vt a b r1 r2 u ≤ b := by
  unfold _generate_emergency_patient_value
  rw [if_pos hr]
  by_cases h2 : r2 < 1/2
  · rw [if_pos h2]
    have hq1 : a ≤ a + (b - a) * (3/10) := by nlinarith
    have hq2 : a + (b - a) * (3/10) ≤ b := by nlinarith
    have hu := uniformDraw_mem a (a + (b - a) * (3/10)) u hq1 h0 h1
    exact roundTo1_mem_of_le a b _ hd1 hd2 hu.1 (le_trans hu.2 hq2)
  · rw [if_neg h2]
    have hq1 : a ≤ b - (b - a) * (3/10) := by nlinarith
    have hq2 : b - (b - a) * (3/10) ≤ b := by nlinarith
    have hu := uniformDraw_mem (b - (b - a) * (3/10)) b u hq2 h0 h1
    exact roundTo1_mem_of_le a b _ hd1 hd2 (le_trans hq1 hu.1) hu.2

lemma _generate_emergency_patient_value_fallback_mem (vt : VitalSignType) (a b r1 r2 u : ℚ)
    (hr : 3/4 ≤ r1) (h0 : 0 ≤ u) (h1 : u ≤ 1) :
    (ABNORMAL_VITAL_RANGES vt).1 ≤ _generate_emergency_patient_value vt a b r1 r2 u ∧
      _generate_emergency_patient_value vt a b r1 r2 u ≤ (ABNORMAL_VITAL_RANGES vt).2 := by
  unfold _generate_emergency_patient_value
  rw [if_neg (not_lt.mpr hr)]
  obtain ⟨hd1, hd2, hle⟩ := abnormal_table_facts vt
  exact roundTo1_uniformDraw_mem _ _ u hd1 hd2 hle h0 h1

/-- C1 counterexample: in abnormal mode with no custom override, the
active range for oxygen saturation is (85, 94), yet the non-spike
branch (draws r1 = 1/2, u = 1/2) samples from the static normal-mode
range and returns 97.5, which is outside the active range. -/
theorem c1_sample_outside_active_range :
    get_vital_range_for_mode generatorInit .OXYGEN_SATURATION .ABNORMAL_CONDITION_PATIENT
      = (85, 94) ∧
    generate_vital_sign_value generatorInit .OXYGEN_SATURATION .ABNORMAL_CONDITION_PATIENT
      (1/2) 0 (1/2) = 195/2 ∧
    ¬ ((195 : ℚ)/2 ≤ 94) := by
  refine ⟨rfl, ?_, by norm_num⟩
  norm_num [generate_vital_sign_value, _generate_abnormal_patient_value,
    get_vital_range_for_mode, generatorInit, predefined_vital_ranges,
    NORMAL_VITAL_RANGES, uniformDraw, roundTo1, round_eq]

/-- C1 (amended): every sampled value has one decimal place; the value
lies within [min, max] of the active range (custom override if set,
else the mode's static table, assumed well-ordered with one-decimal
bounds as all static tables are) in normal mode and in the spike
branches of abnormal mode (r1 < 0.3) and emergency mode (r1 < 0.75);
in abnormal mode's non-spike branch the value instead lies within the
static normal-mode range of the vital type, and in emergency mode's
non-critical branch within the static abnormal-mode range. -/
theorem c1_sample_active_range_amended (g : VitalSignsValueGenerator) (vt : VitalSignType)
    (mode : PatientSimulationMode) (r1 r2 u : ℚ)
    (hdmin : IsDecimal1 (get_vital_range_for_mode g vt mode).1)
    (hdmax : IsDecimal1 (get_vital_range_for_mode g vt mode).2)
    (hle : (get_vital_range_for_mode g vt mode).1 ≤ (get_vital_range_for_mode g vt mode).2)
    (h0 : 0 ≤ u) (h1 : u ≤ 1) :
    IsDecimal1 (generate_vital_sign_value g vt mode r1 r2 u) ∧
    ((mode = .ABNORMAL_CONDITION_PATIENT ∧ 3/10 ≤ r1) →
      (NORMAL_VITAL_RANGES vt).1 ≤ generate_vital_sign_value g vt mode r1 r2 u ∧
      generate_vital_sign_value g vt mode r1 r2 u ≤ (NORMAL_VITAL_RANGES vt).2) ∧
    ((mode = .EMERGENCY_CRITICAL_PATIENT ∧ 3/4 ≤ r1) →
      (ABNORMAL_VITAL_RANGES vt).1 ≤ generate_vital_sign_value g vt mode r1 r2 u ∧
      generate_vital_sign_value g vt mode r1 r2 u ≤ (ABNORMAL_VITAL_RANGES vt).2) ∧
    ((mode = .NORMAL_HEALTHY_PATIENT ∨ (mode = .ABNORMAL_CONDITION_PATIENT ∧ r1 < 3/10)
        ∨ (mode = .EMERGENCY_CRITICAL_PATIENT ∧ r1 < 3/4)) →
      (get_vital_range_for_mode g vt mode).1 ≤ generate_vital_sign_value g vt mode r1 r2 u ∧
      generate_vital_sign_value g vt mode r1 r2 u
        ≤ (get_vital_range_for_mode g vt mode).2) := by
  refine ⟨generate_vital_sign_value_decimal g vt mode r1 r2 u, ?_, ?_, ?_⟩
  · rintro ⟨hm, hr⟩
    subst hm
    simpa [generate_vital_sign_value] using
      _generate_abnormal_patient_value_fallback_mem vt
        (get_vital_range_for_mode g vt .ABNORMAL_CONDITION_PATIENT).1
        (get_vital_range_for_mode g vt .ABNORMAL_CONDITION_PATIENT).2 r1 r2 u hr h0 h1
  · rintro ⟨hm, hr⟩
    subst hm
    simpa [generate_vital_sign_value] using
      _generate_emergency_patient_value_fallback_mem vt
        (get_vital_range_for_mode g vt .EMERGENCY_CRITICAL_PATIENT).1
        (get_vital_range_for_mode g vt .EMERGENCY_CRITICAL_PATIENT).2 r1 r2 u hr h0 h1
  · rintro (hm | ⟨hm, hr⟩ | ⟨hm, hr⟩)
    · subst hm
      simpa [generate_vital_sign_value] using
        _generate_normal_patient_value_mem
          (get_vital_range_for_mode g vt .NORMAL_HEALTHY_PATIENT).1
          (get_vital_range_for_mode g vt .NORMAL_HEALTHY_PATIENT).2 u hdmin hdmax hle
    · subst hm
      simpa [generate_vital_sign_value] using
        _generate_abnormal_patient_value_spike_mem vt
          (get_vital_range_for_mode g vt .ABNORMAL_CONDITION_PATIENT).1
          (get_vital_range_for_mode g vt .ABNORMAL_CONDITION_PATIENT).2 r1 r2 u
          hdmin hdmax hle hr h0 h1
    · subst hm
      simpa [generate_vital_sign_value] using
        _generate_emergency_patient_value_spike_mem vt
          (get_vital_range_for_mode g vt .EMERGENCY_CRITICAL_PATIENT).1
          (get_vital_range_for_mode g vt .EMERGENCY_CRITICAL_PATIENT).2 r1 r2 u
          hdmin hdmax hle hr h0 h1

/-- C1 witness: heart rate in normal mode with no override (active
range (60, 100), draw u = 1/2) yields a one-decimal value within the
active range. -/
theorem c1_sample_active_range_amended_instance :
    IsDecimal1 (generate_vital_sign_value generatorInit .HEART_RATE
      .NORMAL_HEALTHY_PATIENT 0 0 (1/2)) ∧
    60 ≤ generate_vital_sign_value generatorInit .HEART_RATE
      .NORMAL_HEALTHY_PATIENT 0 0 (1/2) ∧
    generate_vital_sign_value generatorInit .HEART_RATE
      .NORMAL_HEALTHY_PATIENT 0 0 (1/2) ≤ 100 := by
  have h := c1_sample_active_range_amended generatorInit .HEART_RATE
    .NORMAL_HEALTHY_PATIENT 0 0 (1/2)
    ⟨600, by norm_num [get_vital_range_for_mode, generatorInit, predefined_vital_ranges,
      NORMAL_VITAL_RANGES]⟩
    ⟨1000, by norm_num [get_vital_range_for_mode, generatorInit, predefined_vital_ranges,
      NORMAL_VITAL_RANGES]⟩
    (by norm_num [get_vital_range_for_mode, generatorInit, predefined_vital_ranges,
      NORMAL_VITAL_RANGES])
    (by norm_num) (by norm_num)
  have h4 := h.2.2.2 (Or.inl rfl)
  refine ⟨h.1, ?_, ?_⟩
  · have := h4.1
    simpa [get_vital_range_for_mode, generatorInit, predefined_vital_ranges,
      NORMAL_VITAL_RANGES] using this
  · have := h4.2
    simpa [get_vital_range_for_mode, generatorInit, predefined_vital_ranges,
      NORMAL_VITAL_RANGES] using this

/-- C8 witness: a reading that is in range on every threshold but whose
mode string is "emergency" gets the urgency flag. -/
theorem c8_urgency_flag_iff_instance :
    _determine_urgency_level (create_current_timestamp_reading 72 120 80 98 (366/10) 16
      .EMERGENCY_CRITICAL_PATIENT "BioHarness_Sim_001" "patient_001" "T") = true := by
  exact (c8_urgency_flag_iff (create_current_timestamp_reading 72 120 80 98 (366/10) 16
    .EMERGENCY_CRITICAL_PATIENT "BioHarness_Sim_001" "patient_001" "T")).mpr
    (by right; right; right; right; right; right; right; right; right; rfl)
